import Mathlib

/-!
Verification of the geography-resolution core of `abs-mcp-server`.

The definitions below are a shallow embedding of `src/index.ts`:

* postcode validation (`validatePostcode`, the regular expression `^\d{4}$`),
* the postcode → SA2 concordance cache built by `initializeGeographyCache`
  (JavaScript `Map` with insertion order modelled as an association list),
* the lookup `getSA2CodesForPostcode`,
* the two-tier dataset loader shared by `initializeGeographyCache` and
  `initializeGeoBoundaries` (disk cache with a 30-day staleness threshold,
  falling back to the embedded baseline file and attempting a cache rewrite),
* the reverse geocoder `latLongToSA2` (linear point-in-polygon scan); the
  floating-point geometry test `turf.booleanPointInPolygon` is a black box
  and is modelled as a per-polygon oracle `GeoPoint → Option Bool`, where
  `none` models a geometry evaluation that throws (the feature is skipped),
* the pre-network part of the tool handler `handleGetSuburbStats`
  (validation, cache-availability check, postcode lookup, and the exact
  error texts it responds with).

Coordinates are modelled as rational numbers: the JavaScript numbers that
reach the range comparisons are finite doubles, and every comparison made
by the code is exact, so `ℚ` is a faithful carrier for them.
-/

/-- Result of `validatePostcode` in `src/index.ts`: the function throws a
`ValidationError` unless the postcode matches `/^\d{4}$/` (the `!postcode`
guard only adds the empty string, which the pattern already rejects).
`true` means validation passes. -/
def validatePostcode (postcode : String) : Bool :=
  postcode.length == 4 && postcode.data.all Char.isDigit

/-- Splitting on a single separator character, with the semantics of the
JavaScript `String.split` calls `csvText.split('\n')` and
`line.split(',')`: the empty string yields one empty field, and a
trailing separator yields a trailing empty field. Defined structurally
over the character list so that it evaluates inside the kernel. -/
def splitOnChar (sep : Char) : List Char → List (List Char)
  | [] => [[]]
  | c :: rest =>
    if c = sep then [] :: splitOnChar sep rest
    else
      match splitOnChar sep rest with
      | [] => [[c]]
      | g :: gs => (c :: g) :: gs

/-- Whitespace trimming with the semantics of JavaScript `trim`: remove
leading and trailing whitespace characters. -/
def trimChars (cs : List Char) : List Char :=
  ((cs.dropWhile Char.isWhitespace).reverse.dropWhile Char.isWhitespace).reverse

/-- Parsing of one concordance CSV row inside `initializeGeographyCache`:
trim the line, skip it if empty, split on commas, skip it if fewer than two
fields, trim the first two fields, and keep them only if both are nonempty. -/
def parseConcordanceLine (line : List Char) : Option (String × String) :=
  let l := trimChars line
  if l = [] then none
  else
    match splitOnChar ',' l with
    | p0 :: p1 :: _ =>
      let postcode := trimChars p0
      let sa2Code := trimChars p1
      if postcode = [] ∨ sa2Code = [] then none
      else some (⟨postcode⟩, ⟨sa2Code⟩)
    | _ => none

/-- Insertion into the `geographyCache` JavaScript `Map`: if the key is
absent, a fresh singleton entry is appended at the end (JS `Map` preserves
insertion order); if present, the value is pushed onto the existing array. -/
def insertAppend : List (String × List String) → String → String → List (String × List String)
  | [], k, v => [(k, [v])]
  | (k', vs) :: rest, k, v =>
    if k' = k then (k', vs ++ [v]) :: rest else (k', vs) :: insertAppend rest k v

/-- Lookup in the association-list model of the `geographyCache` map
(`Map.get`): `none` when the key is absent. -/
def lookupCache : List (String × List String) → String → Option (List String)
  | [], _ => none
  | (k, vs) :: rest, key => if k = key then some vs else lookupCache rest key

/-- CSV parse loop of `initializeGeographyCache`: skip the header line
(loop starts at index 1), fold the remaining lines into the map. -/
def buildGeographyCache (csvText : String) : List (String × List String) :=
  ((splitOnChar '\n' csvText.data).drop 1).foldl
    (fun m line =>
      match parseConcordanceLine line with
      | some ps => insertAppend m ps.1 ps.2
      | none => m)
    []

/-- Module-level mutable state owned by the geography cache in
`src/index.ts` (`geographyCache`, `cacheInitialized`, `cacheError`). -/
structure CacheState where
  geographyCache : List (String × List String)
  cacheInitialized : Bool
  cacheError : Option String

/-- Lookup `getSA2CodesForPostcode`: returns `[]` when the cache never
finished initializing, otherwise `geographyCache.get(postcode) || []`. -/
def getSA2CodesForPostcode (st : CacheState) (postcode : String) : List String :=
  if st.cacheInitialized = false then []
  else (lookupCache st.geographyCache postcode).getD []

/-- Response envelope produced by `createErrorResponse` /
`createSuccessResponse`: the observable part is the text payload and the
`isError` flag. -/
structure ToolResponse where
  text : String
  isError : Bool
deriving DecidableEq

/-- Response observed by the client when `validatePostcode` throws: the
`ValidationError` is caught by the `CallToolRequestSchema` handler, which
wraps the message in `createErrorResponse` with the prefix shown here. -/
def invalidPostcodeResponse (postcode : String) : ToolResponse :=
  ⟨"Error executing tool: Invalid Australian postcode: \"" ++ postcode ++
    "\". Postcode must be exactly 4 digits (e.g., \"2000\").", true⟩

/-- Error response of `handleGetSuburbStats` when `cacheInitialized` is
false (the concordance index never finished building). -/
def cacheUnavailableResponse (st : CacheState) : ToolResponse :=
  ⟨"Geography cache not yet initialized. Cannot filter by postcode.\nError: " ++
    (st.cacheError.getD "Cache initialization in progress") ++
    "\nThe server will return data once the cache is ready.", true⟩

/-- Error response of `handleGetSuburbStats` when the cache is ready but
the postcode has no SA2 mapping (`sa2Codes.length === 0`);
`geographyCache.size` is the number of keys of the map. -/
def postcodeNotFoundResponse (st : CacheState) (postcode : String) : ToolResponse :=
  ⟨"Postcode " ++ postcode ++
    " not found in geography cache.\nThis may be an invalid postcode or one without SA2 mapping.\nCache contains " ++
    toString st.geographyCache.length ++ " valid postcodes.", true⟩

/-- Continuation of a tool handler after its local (index-only) phase:
either it already responded, or it proceeds to the ABS network fetch with
the looked-up SA2 codes. The network part of the handler is out of the
embedded core (spec §1 scopes it out). -/
inductive HandlerStep where
  | respond (response : ToolResponse)
  | fetchStats (sa2Codes : List String) (primarySA2 : String)
deriving DecidableEq

/-- Local phase of `handleGetSuburbStats`: validate the postcode (a throw
surfaces as `invalidPostcodeResponse`), short-circuit when the cache is
not initialized, look the postcode up, respond not-found on an empty
result, otherwise continue to the fetch with `sa2Codes[0]` as primary. -/
def handleGetSuburbStats (st : CacheState) (postcode : String) : HandlerStep :=
  if validatePostcode postcode = false then
    .respond (invalidPostcodeResponse postcode)
  else if st.cacheInitialized = false then
    .respond (cacheUnavailableResponse st)
  else
    match getSA2CodesForPostcode st postcode with
    | [] => .respond (postcodeNotFoundResponse st postcode)
    | c :: cs => .fetchStats (c :: cs) c

/-- Tier reported by the two-tier loader: fresh disk cache, or the
embedded baseline file. -/
inductive Tier where
  | cached
  | baseline
deriving DecidableEq

/-- Filesystem/clock snapshot consumed by one dataset load in
`initializeGeographyCache` / `initializeGeoBoundaries`:
whether the cache file exists, whether `statSync` succeeds, its mtime and
the current clock (milliseconds), the cache bytes, the baseline bytes
(`none` models a `readFileSync` throw on the embedded path), and whether
the cache write (mkdir + write) would succeed. -/
structure LoaderEnv where
  cacheExists : Bool
  statOk : Bool
  mtimeMs : Int
  nowMs : Int
  cacheBytes : String
  baselineBytes : Option String
  writeOk : Bool

/-- Outcome of a successful dataset load: the bytes handed to the parser,
the tier they came from, and whether a cache rewrite was attempted and
succeeded. -/
structure LoadOutcome where
  bytes : String
  tier : Tier
  cacheWriteAttempted : Bool
  cacheWriteSucceeded : Bool
deriving DecidableEq

/-- Staleness threshold used by both loaders:
`30 * 24 * 60 * 60 * 1000` milliseconds (30 days). -/
def cacheMaxAge : Int := 30 * 24 * 60 * 60 * 1000

/-- Freshness decision of the loader: `useCache` becomes true only when
the cache file exists, `statSync` succeeds, and the age `now - mtimeMs`
is strictly below `cacheMaxAge`; a `statSync` throw leaves it false. -/
def useCacheDecision (env : LoaderEnv) : Bool :=
  env.cacheExists && env.statOk && decide (env.nowMs - env.mtimeMs < cacheMaxAge)

/-- Shared loader logic of `initializeGeographyCache` and
`initializeGeoBoundaries` (the two blocks are line-for-line identical up
to paths): read the cache when fresh; otherwise read the baseline file
(a throw there is the only fatal outcome) and attempt to write the cache,
swallowing any write/mkdir failure. A successful cache read is modelled
as total (`cacheBytes`). -/
def loadDataset (env : LoaderEnv) : Except String LoadOutcome :=
  if useCacheDecision env then
    .ok ⟨env.cacheBytes, .cached, false, false⟩
  else
    match env.baselineBytes with
    | some b => .ok ⟨b, .baseline, true, env.writeOk⟩
    | none => .error "Failed to initialize: could not read embedded data"

/-- Composition `initializeGeographyCache`: load the concordance bytes,
parse them into the map, and set `cacheInitialized`; a load failure
records `cacheError` and leaves the flag unset. -/
def initializeGeographyCache (env : LoaderEnv) : CacheState :=
  match loadDataset env with
  | .ok r => ⟨buildGeographyCache r.bytes, true, none⟩
  | .error e => ⟨[], false, some e⟩

/-- Query coordinate. The public API takes (latitude, longitude); the
(longitude, latitude) flip done for `turf.point` is internal to the
containment oracle. -/
structure GeoPoint where
  lat : ℚ
  lon : ℚ

/-- Geometry of a boundary feature, with `turf.booleanPointInPolygon`
abstracted per polygon ring set as an oracle `GeoPoint → Option Bool`;
`none` models a turf evaluation that throws, which makes the scan skip
the whole feature (the per-feature `try/catch`). `otherKind` covers the
declared `Point` geometry type, which matches neither branch of the scan
and is silently skipped. -/
inductive Geometry where
  | polygon (test : GeoPoint → Option Bool)
  | multiPolygon (parts : List (GeoPoint → Option Bool))
  | otherKind

/-- Boundary feature as parsed from the GeoJSON dataset: SA2 code, name,
geometry (state fields are unused by the scan). -/
structure GeoJSONFeature where
  SA2_CODE : String
  SA2_NAME : String
  geometry : Geometry

/-- Feature collection loaded by `initializeGeoBoundaries`. -/
structure GeoJSONFeatureCollection where
  features : List GeoJSONFeature

/-- MultiPolygon branch of the scan: each member polygon is tested in
order; a hit returns the feature, a throw (`none`) aborts this feature
via the surrounding `catch` (remaining members are not tested). -/
def multiPolygonHit : List (GeoPoint → Option Bool) → GeoPoint → Bool
  | [], _ => false
  | t :: rest, p =>
    match t p with
    | some true => true
    | some false => multiPolygonHit rest p
    | none => false

/-- Per-feature body of the scan loop in `latLongToSA2`: a `Polygon` is
tested directly (a throw skips the feature), a `MultiPolygon` is a
logical OR over member polygons, any other geometry kind is skipped. -/
def featureHit (f : GeoJSONFeature) (p : GeoPoint) : Bool :=
  match f.geometry with
  | .polygon t => (t p).getD false
  | .multiPolygon parts => multiPolygonHit parts p
  | .otherKind => false

/-- Linear scan of `latLongToSA2`: the first feature in load order whose
geometry contains the point wins; no hit returns `null`. -/
def firstHit : List GeoJSONFeature → GeoPoint → Option (String × String)
  | [], _ => none
  | f :: rest, p =>
    if featureHit f p then some (f.SA2_CODE, f.SA2_NAME) else firstHit rest p

/-- Module-level mutable state owned by the geospatial subsystem
(`geoFeatures`, `geoBoundariesInitialized`, `geoBoundariesError`). -/
structure GeoState where
  geoFeatures : Option GeoJSONFeatureCollection
  geoBoundariesInitialized : Bool
  geoBoundariesError : Option String

/-- Reverse geocoder `latLongToSA2`: returns `null` when the boundary
subsystem is not initialized or `geoFeatures` is null, then returns
`null` for out-of-range coordinates, then runs the linear containment
scan; a scan with no containing feature also returns `null`. -/
def latLongToSA2 (st : GeoState) (latitude longitude : ℚ) : Option (String × String) :=
  if st.geoBoundariesInitialized = false then none
  else
    match st.geoFeatures with
    | none => none
    | some fc =>
      if latitude < -90 ∨ latitude > 90 ∨ longitude < -180 ∨ longitude > 180 then none
      else firstHit fc.features ⟨latitude, longitude⟩

/-- Composition `initializeGeoBoundaries`: load the boundary bytes and
parse them (`JSON.parse` plus the GeoJSON shape is a black box, passed in
as `parseGeo`; `none` models a parse throw). Success publishes the
feature collection and sets the ready flag; any failure records
`geoBoundariesError` and leaves the flag unset. -/
def initializeGeoBoundaries (parseGeo : String → Option GeoJSONFeatureCollection)
    (env : LoaderEnv) : GeoState :=
  match loadDataset env with
  | .ok r =>
    match parseGeo r.bytes with
    | some fc => ⟨some fc, true, none⟩
    | none => ⟨none, false, some "Failed to initialize geospatial boundaries"⟩
  | .error e => ⟨none, false, some e⟩

/-- State-passing form of `getSA2CodesForPostcode`: the source function
reads `cacheInitialized` and `geographyCache` and assigns to neither, so
its embedding returns the module state unchanged alongside the result. -/
def runPostcodeLookup (st : CacheState) (postcode : String) : List String × CacheState :=
  (getSA2CodesForPostcode st postcode, st)

/-- State-passing form of `latLongToSA2`: the source function reads
`geoBoundariesInitialized` and `geoFeatures` and assigns to neither, so
its embedding returns the module state unchanged alongside the result. -/
def runLatLongToSA2 (st : GeoState) (latitude longitude : ℚ) :
    Option (String × String) × GeoState :=
  (latLongToSA2 st latitude longitude, st)

/-- Modelled from the spec: a CentroidIndex entry (§4.4) — one
representative coordinate per SA2 region. The repository's
nearest-centroid resolver (the `get_location_stats` tool described in the
README and exercised by `test-detailed.js` / `test-server.js`) is not
present in the source tree; only the point-in-polygon snapshot is. -/
structure Centroid where
  sa2Code : String
  sa2Name : String
  coord : GeoPoint

/-- Modelled from the spec: `CentroidIndex.nearest` (§4.4) — the
minimum-distance candidate, ties resolving to the first candidate in
index order, `none` on an empty index. The great-circle (haversine)
distance is floating-point trigonometry in the missing source, so it is
abstracted as the `dist` parameter; every theorem below holds for any
distance function, in particular the haversine one. -/
def nearestInIndex (dist : GeoPoint → GeoPoint → ℚ) :
    List Centroid → GeoPoint → Option (Centroid × ℚ)
  | [], _ => none
  | c :: rest, p =>
    match nearestInIndex dist rest p with
    | none => some (c, dist p c.coord)
    | some (c', d') =>
      if dist p c.coord ≤ d' then some (c, dist p c.coord) else some (c', d')

/-- Resolution strategy reported by the merged resolver (spec §4.5). -/
inductive ResolveMethod where
  | containment
  | nearestCentroid
deriving DecidableEq

/-- Modelled from the spec: result taxonomy of `resolveCoordinate`
(§4.5) — `ok` with the region, the strategy used and an optional
distance, or one of the structured non-ok statuses. -/
inductive CoordOutcome where
  | ok (sa2Code sa2Name : String) (method : ResolveMethod) (distanceKm : Option ℚ)
  | outOfRange
  | indexUnavailable
  | noMatch
deriving DecidableEq

/-- Modelled from the spec: state snapshot of the GeographyResolver
(§4.5) — per-sub-index readiness plus the loaded boundary features and
centroid entries. -/
structure ResolverState where
  boundaryReady : Bool
  boundaryFeatures : List GeoJSONFeature
  centroidReady : Bool
  centroids : List Centroid

/-- Modelled from the spec: `resolveCoordinate` (§4.5) — validate range
first (`outOfRange` before touching any index); then containment on the
BoundaryIndex if ready (the source-derived `firstHit` scan); otherwise
`nearest` on the CentroidIndex if ready, answering `ok` with
`method = nearestCentroid` and the computed distance; otherwise `noMatch`
if at least one index was ready, else `indexUnavailable`. -/
def resolveCoordinate (dist : GeoPoint → GeoPoint → ℚ) (st : ResolverState)
    (latitude longitude : ℚ) : CoordOutcome :=
  if latitude < -90 ∨ latitude > 90 ∨ longitude < -180 ∨ longitude > 180 then
    .outOfRange
  else
    let p : GeoPoint := ⟨latitude, longitude⟩
    match (if st.boundaryReady then firstHit st.boundaryFeatures p else none) with
    | some hit => .ok hit.1 hit.2 .containment none
    | none =>
      match (if st.centroidReady then nearestInIndex dist st.centroids p else none) with
      | some cd => .ok cd.1.sa2Code cd.1.sa2Name .nearestCentroid (some cd.2)
      | none => if st.boundaryReady || st.centroidReady then .noMatch else .indexUnavailable

/-- Specification-side extraction for the concordance table (spec §4.2
and §8): the SA2 codes associated with a postcode are exactly the second
fields of its rows, in file order, duplicates kept. Stated independently
of the map so that the lookup can be compared against it. -/
def concordanceRowsFor (csvText postcode : String) : List String :=
  ((splitOnChar '\n' csvText.data).drop 1).filterMap fun line =>
    match parseConcordanceLine line with
    | some ps => if ps.1 = postcode then some ps.2 else none
    | none => none

lemma lookupCache_insertAppend_self (m : List (String × List String)) (k v : String) :
    lookupCache (insertAppend m k v) k = some ((lookupCache m k).getD [] ++ [v]) := by
  induction m with
  | nil => simp [insertAppend, lookupCache]
  | cons kv rest ih =>
    obtain ⟨k', vs⟩ := kv
    by_cases h : k' = k
    · subst h
      simp [insertAppend, lookupCache]
    · simp [insertAppend, lookupCache, h, ih]

lemma lookupCache_insertAppend_other (m : List (String × List String)) (k v key : String)
    (h : k ≠ key) :
    lookupCache (insertAppend m k v) key = lookupCache m key := by
  induction m with
  | nil => simp [insertAppend, lookupCache, h]
  | cons kv rest ih =>
    obtain ⟨k', vs⟩ := kv
    by_cases hk : k' = k
    · subst hk
      simp [insertAppend, lookupCache, h]
    · simp [insertAppend, lookupCache, hk, ih]

lemma buildFold_lookup (lines : List (List Char)) (m : List (String × List String)) (p : String) :
    (lookupCache (lines.foldl (fun m line =>
        match parseConcordanceLine line with
        | some ps => insertAppend m ps.1 ps.2
        | none => m) m) p).getD []
      = (lookupCache m p).getD [] ++ lines.filterMap (fun line =>
          match parseConcordanceLine line with
          | some ps => if ps.1 = p then some ps.2 else none
          | none => none) := by
  induction lines generalizing m with
  | nil => simp
  | cons line rest ih =>
    cases hline : parseConcordanceLine line with
    | none => simp [List.foldl_cons, List.filterMap_cons, hline, ih]
    | some ps =>
      by_cases hp : ps.1 = p
      · simp only [List.foldl_cons, List.filterMap_cons, hline, hp, if_pos rfl, ih]
        rw [lookupCache_insertAppend_self]
        simp
      · simp only [List.foldl_cons, List.filterMap_cons, hline, if_neg hp, ih]
        rw [lookupCache_insertAppend_other _ _ _ _ hp]

lemma postcodeNotFoundResponse_head (st : CacheState) (p : String) :
    (postcodeNotFoundResponse st p).text.data.head? = some 'P' := rfl

lemma cacheUnavailableResponse_head (st : CacheState) :
    (cacheUnavailableResponse st).text.data.head? = some 'G' := rfl

lemma invalidPostcodeResponse_head (p : String) :
    (invalidPostcodeResponse p).text.data.head? = some 'E' := rfl

lemma postcodeNotFoundResponse_ne_cacheUnavailableResponse
    (st st' : CacheState) (p : String) :
    postcodeNotFoundResponse st p ≠ cacheUnavailableResponse st' := by
  intro h
  have hh : (postcodeNotFoundResponse st p).text.data.head?
      = (cacheUnavailableResponse st').text.data.head? := by rw [h]
  rw [postcodeNotFoundResponse_head, cacheUnavailableResponse_head] at hh
  exact absurd hh (by decide)

lemma nearestInIndex_spec (dist : GeoPoint → GeoPoint → ℚ)
    (l : List Centroid) (p : GeoPoint) (h : l ≠ []) :
    ∃ c d, nearestInIndex dist l p = some (c, d) ∧ c ∈ l ∧
      d = dist p c.coord ∧ ∀ c' ∈ l, d ≤ dist p c'.coord := by
  induction l with
  | nil => exact absurd rfl h
  | cons c rest ih =>
    cases hr : nearestInIndex dist rest p with
    | none =>
      have hrest : rest = [] := by
        cases rest with
        | nil => rfl
        | cons x xs =>
          exfalso
          rw [nearestInIndex] at hr
          cases hx : nearestInIndex dist xs p <;> rw [hx] at hr <;> simp at hr
          split at hr <;> simp at hr
      subst hrest
      exact ⟨c, dist p c.coord, by simp [nearestInIndex], by simp, rfl, by simp⟩
    | some cd =>
      obtain ⟨c0, d0, heq, hmem, hd, hmin⟩ := ih (by
        intro hnil
        rw [hnil, nearestInIndex] at hr
        exact Option.noConfusion hr)
      by_cases hle : dist p c.coord ≤ d0
      · refine ⟨c, dist p c.coord, ?_, by simp, rfl, ?_⟩
        · simp only [nearestInIndex, heq]
          simp [hle]
        · intro c' hc'
          rcases List.mem_cons.mp hc' with rfl | hc'
          · exact le_refl _
          · exact le_trans hle (hmin c' hc')
      · refine ⟨c0, d0, ?_, List.mem_cons_of_mem _ hmem, hd, ?_⟩
        · simp only [nearestInIndex, heq]
          simp [hle]
        · intro c' hc'
          rcases List.mem_cons.mp hc' with rfl | hc'
          · exact le_of_lt (lt_of_not_le hle)
          · exact hmin c' hc'

lemma firstHit_append_first (pre post : List GeoJSONFeature) (f : GeoJSONFeature)
    (p : GeoPoint)
    (hpre : ∀ g ∈ pre, featureHit g p = false)
    (hf : featureHit f p = true) :
    firstHit (pre ++ f :: post) p = some (f.SA2_CODE, f.SA2_NAME) := by
  induction pre with
  | nil => simp [firstHit, hf]
  | cons g rest ih =>
    have hg : featureHit g p = false := hpre g (List.mem_cons_self g rest)
    simp only [List.cons_append, firstHit, hg]
    simp only [Bool.false_eq_true, if_false]
    exact ih fun g' hg' => hpre g' (List.mem_cons_of_mem _ hg')

/-- C1: for every in-range coordinate query, when the boundary index
yields no containing polygon (or is not ready) and the centroid index is
ready and populated, `resolveCoordinate` falls back to nearest-centroid
resolution and answers `ok` with `method = nearestCentroid` and the
computed distance — the minimum of the (abstracted great-circle) distance
over all centroids, realized at the returned region — rather than
answering `noMatch`. -/
theorem resolveCoordinate_nearestCentroid_fallback
    (dist : GeoPoint → GeoPoint → ℚ) (st : ResolverState) (latitude longitude : ℚ)
    (hlat1 : -90 ≤ latitude) (hlat2 : latitude ≤ 90)
    (hlon1 : -180 ≤ longitude) (hlon2 : longitude ≤ 180)
    (hbound : st.boundaryReady = true →
      firstHit st.boundaryFeatures ⟨latitude, longitude⟩ = none)
    (hcent : st.centroidReady = true) (hne : st.centroids ≠ []) :
    ∃ c d, nearestInIndex dist st.centroids ⟨latitude, longitude⟩ = some (c, d) ∧
      resolveCoordinate dist st latitude longitude
        = .ok c.sa2Code c.sa2Name .nearestCentroid (some d) ∧
      d = dist ⟨latitude, longitude⟩ c.coord ∧
      ∀ c' ∈ st.centroids, d ≤ dist ⟨latitude, longitude⟩ c'.coord := by
  obtain ⟨c, d, heq, hmem, hd, hmin⟩ :=
    nearestInIndex_spec dist st.centroids ⟨latitude, longitude⟩ hne
  refine ⟨c, d, heq, ?_, hd, hmin⟩
  have hrange : ¬(latitude < -90 ∨ latitude > 90 ∨ longitude < -180 ∨ longitude > 180) := by
    push_neg
    exact ⟨hlat1, hlat2, hlon1, hlon2⟩
  unfold resolveCoordinate
  rw [if_neg hrange]
  cases hB : st.boundaryReady
  · simp only [Bool.false_eq_true, if_false, hcent, if_true, heq]
  · simp only [if_true, hbound hB, hcent, heq]

/-- C2 (counterexample): in the source, `latLongToSA2` answers an
out-of-range coordinate with the same bare `null` that it uses for an
in-range point contained in no polygon and for an uninitialized boundary
subsystem — the three outcomes are conflated, so no distinct `outOfRange`
status exists. -/
theorem latLongToSA2_outOfRange_conflated :
    latLongToSA2 ⟨some ⟨[⟨"11703", "Sydney - Haymarket - The Rocks",
        .polygon fun _ => some false⟩]⟩, true, none⟩ 91 0 = none ∧
    latLongToSA2 ⟨some ⟨[⟨"11703", "Sydney - Haymarket - The Rocks",
        .polygon fun _ => some false⟩]⟩, true, none⟩ 0 151 = none ∧
    latLongToSA2 ⟨none, false, none⟩ 91 0 = none :=
  ⟨rfl, rfl, rfl⟩

/-- C2 (amended): for every coordinate with latitude outside [-90, 90] or
longitude outside [-180, 180], `latLongToSA2` returns `none` for every
state — in particular no feature geometry is ever consulted — but this
`none` is the same value used for the no-match and not-initialized
outcomes rather than a distinct `outOfRange` status. -/
theorem latLongToSA2_outOfRange_none (st : GeoState) (latitude longitude : ℚ)
    (h : latitude < -90 ∨ latitude > 90 ∨ longitude < -180 ∨ longitude > 180) :
    latLongToSA2 st latitude longitude = none := by
  rcases st with ⟨feats, init, err⟩
  cases init <;> cases feats <;> simp [latLongToSA2, h]

/-- C2 (witness for the amended theorem): a latitude of 91 with a
populated, initialized boundary state resolves to `none`. -/
theorem latLongToSA2_outOfRange_none_witness :
    latLongToSA2 ⟨some ⟨[⟨"11703", "Sydney - Haymarket - The Rocks",
        .polygon fun _ => some true⟩]⟩, true, none⟩ 91 0 = none :=
  latLongToSA2_outOfRange_none _ 91 0 (Or.inr (Or.inl (by norm_num)))

/-- C1 (witness): with an empty boundary index and a one-entry centroid
index, the query (-33, 151) resolves by nearest centroid with the
computed distance. -/
theorem resolveCoordinate_nearestCentroid_fallback_witness :
    ∃ c d,
      nearestInIndex (fun a b => |a.lat - b.lat| + |a.lon - b.lon|)
          [⟨"11703", "Sydney - Haymarket - The Rocks", ⟨-34, 151⟩⟩] ⟨-33, 151⟩
        = some (c, d) ∧
      resolveCoordinate (fun a b => |a.lat - b.lat| + |a.lon - b.lon|)
          ⟨true, [], true, [⟨"11703", "Sydney - Haymarket - The Rocks", ⟨-34, 151⟩⟩]⟩
          (-33) 151
        = .ok c.sa2Code c.sa2Name .nearestCentroid (some d) ∧
      d = |(-33 : ℚ) - c.coord.lat| + |(151 : ℚ) - c.coord.lon| ∧
      ∀ c' ∈ [(⟨"11703", "Sydney - Haymarket - The Rocks", ⟨-34, 151⟩⟩ : Centroid)],
        d ≤ |(-33 : ℚ) - c'.coord.lat| + |(151 : ℚ) - c'.coord.lon| :=
  resolveCoordinate_nearestCentroid_fallback
    (fun a b => |a.lat - b.lat| + |a.lon - b.lon|)
    ⟨true, [], true, [⟨"11703", "Sydney - Haymarket - The Rocks", ⟨-34, 151⟩⟩]⟩
    (-33) 151 (by norm_num) (by norm_num) (by norm_num) (by norm_num)
    (fun _ => rfl) rfl (List.cons_ne_nil _ _)

/-- C3: whenever the disk-cache file exists, its stat succeeds, and its
age `now - mtime` is at least the 30-day maximum, the loader never uses
the cached bytes: it returns the baseline bytes with tier `baseline` and
attempts the cache rewrite. -/
theorem loadDataset_stale_cache_uses_baseline (env : LoaderEnv) (b : String)
    (hex : env.cacheExists = true) (hstat : env.statOk = true)
    (hage : cacheMaxAge ≤ env.nowMs - env.mtimeMs)
    (hbase : env.baselineBytes = some b) :
    loadDataset env = .ok ⟨b, .baseline, true, env.writeOk⟩ := by
  have huse : useCacheDecision env = false := by
    unfold useCacheDecision
    simp [hex, hstat, not_lt.mpr hage]
  unfold loadDataset
  rw [huse]
  simp [hbase]

/-- C3 (witness): a cache file exactly 30 days old is skipped in favour
of the baseline bytes, and the rewrite is attempted. -/
theorem loadDataset_stale_cache_uses_baseline_witness :
    loadDataset ⟨true, true, 0, cacheMaxAge, "stale cached bytes", some "baseline bytes", true⟩
      = .ok ⟨"baseline bytes", .baseline, true, true⟩ :=
  loadDataset_stale_cache_uses_baseline _ _ rfl rfl (by norm_num) rfl

/-- C4: with a successfully built index, a valid postcode absent from the
index draws the not-found error, while (for any valid postcode) an index
that never finished building draws the unavailable error, and the two
responses are never equal. -/
theorem notFound_distinct_from_indexUnavailable (st st' : CacheState) (p q : String)
    (hp : validatePostcode p = true)
    (hinit : st.cacheInitialized = true)
    (habsent : lookupCache st.geographyCache p = none)
    (hq : validatePostcode q = true)
    (huninit : st'.cacheInitialized = false) :
    handleGetSuburbStats st p = .respond (postcodeNotFoundResponse st p) ∧
    handleGetSuburbStats st' q = .respond (cacheUnavailableResponse st') ∧
    postcodeNotFoundResponse st p ≠ cacheUnavailableResponse st' := by
  refine ⟨?_, ?_, postcodeNotFoundResponse_ne_cacheUnavailableResponse st st' p⟩
  · unfold handleGetSuburbStats
    simp [hp, hinit, getSA2CodesForPostcode, habsent]
  · unfold handleGetSuburbStats
    simp [hq, huninit]

/-- C4 (witness): postcode 2000 against a built index containing only
3000 is reported not-found; postcode 2000 against a never-built index is
reported unavailable; the two responses differ. -/
theorem notFound_distinct_from_indexUnavailable_witness :
    handleGetSuburbStats ⟨[("3000", ["20601"])], true, none⟩ "2000"
      = .respond (postcodeNotFoundResponse ⟨[("3000", ["20601"])], true, none⟩ "2000") ∧
    handleGetSuburbStats ⟨[], false, some "boom"⟩ "2000"
      = .respond (cacheUnavailableResponse ⟨[], false, some "boom"⟩) ∧
    postcodeNotFoundResponse ⟨[("3000", ["20601"])], true, none⟩ "2000"
      ≠ cacheUnavailableResponse ⟨[], false, some "boom"⟩ :=
  notFound_distinct_from_indexUnavailable _ _ "2000" "2000"
    (by decide) rfl (by decide) (by decide) rfl

/-- C5: the postcode lookup on a built concordance index returns exactly
the SA2 codes of the rows carrying that postcode, in file order and
without deduplication; in particular a file mapping 2000 to 11703 then
11704 resolves to exactly that ordered list. -/
theorem resolvePostcode_preserves_file_order (csvText postcode : String) :
    getSA2CodesForPostcode ⟨buildGeographyCache csvText, true, none⟩ postcode
      = concordanceRowsFor csvText postcode ∧
    getSA2CodesForPostcode
        ⟨buildGeographyCache "POA_CODE_2021,SA2_CODE_2021\n2000,11703\n2000,11704", true, none⟩
        "2000"
      = ["11703", "11704"] := by
  constructor
  · have h := buildFold_lookup ((splitOnChar '\n' csvText.data).drop 1) [] postcode
    simpa [getSA2CodesForPostcode, buildGeographyCache, concordanceRowsFor, lookupCache] using h
  · decide

/-- C6: an input that does not match the 4-digit pattern (length 4, all
characters decimal digits) draws the validation error from
`handleGetSuburbStats` in every cache state — the concordance index is
never consulted. -/
theorem malformed_postcode_never_reaches_index (p : String)
    (h : ¬(p.length = 4 ∧ ∀ c ∈ p.data, c.isDigit = true)) :
    ∀ st : CacheState, handleGetSuburbStats st p = .respond (invalidPostcodeResponse p) := by
  have hv : validatePostcode p = false := by
    cases hvp : validatePostcode p
    · rfl
    · exfalso
      apply h
      unfold validatePostcode at hvp
      simp only [Bool.and_eq_true, beq_iff_eq, List.all_eq_true] at hvp
      exact hvp
  intro st
  unfold handleGetSuburbStats
  rw [hv]
  simp

/-- C6 (witness): the string "20a0" (and likewise the empty string) fails
the pattern and is rejected with the validation error on a fully built
cache state. -/
theorem malformed_postcode_never_reaches_index_witness :
    handleGetSuburbStats ⟨[("2000", ["11703"])], true, none⟩ "20a0"
      = .respond (invalidPostcodeResponse "20a0") :=
  malformed_postcode_never_reaches_index "20a0" (by decide) _

/-- C7: on an initialized boundary state with in-range coordinates, the
linear scan of `latLongToSA2` returns the first containing feature in
load order: whenever every feature before `f` fails its containment test
and `f` passes, the result is exactly `f`, whatever features (containing
or not) follow it. Determinism across runs is inherent: the scan is a
pure function of the loaded feature list. -/
theorem latLongToSA2_first_containing_in_load_order (st : GeoState)
    (fc : GeoJSONFeatureCollection) (pre post : List GeoJSONFeature)
    (f : GeoJSONFeature) (latitude longitude : ℚ)
    (hinit : st.geoBoundariesInitialized = true)
    (hfeat : st.geoFeatures = some fc)
    (hdecomp : fc.features = pre ++ f :: post)
    (hlat1 : -90 ≤ latitude) (hlat2 : latitude ≤ 90)
    (hlon1 : -180 ≤ longitude) (hlon2 : longitude ≤ 180)
    (hpre : ∀ g ∈ pre, featureHit g ⟨latitude, longitude⟩ = false)
    (hf : featureHit f ⟨latitude, longitude⟩ = true) :
    latLongToSA2 st latitude longitude = some (f.SA2_CODE, f.SA2_NAME) := by
  have hrange : ¬(latitude < -90 ∨ latitude > 90 ∨ longitude < -180 ∨ longitude > 180) := by
    push_neg
    exact ⟨hlat1, hlat2, hlon1, hlon2⟩
  unfold latLongToSA2
  rw [hinit, hfeat]
  simp only [Bool.true_eq_false, if_false]
  rw [if_neg hrange, hdecomp]
  exact firstHit_append_first pre post f ⟨latitude, longitude⟩ hpre hf

/-- C7 (witness): with two features whose polygons both contain the query
point, the scan returns the first one in load order. -/
theorem latLongToSA2_first_containing_in_load_order_witness :
    latLongToSA2
        ⟨some ⟨[⟨"11703", "Sydney - Haymarket - The Rocks", .polygon fun _ => some true⟩,
                ⟨"11704", "Sydney - CBD", .polygon fun _ => some true⟩]⟩, true, none⟩
        (-33) 151
      = some ("11703", "Sydney - Haymarket - The Rocks") :=
  latLongToSA2_first_containing_in_load_order
    ⟨some ⟨[⟨"11703", "Sydney - Haymarket - The Rocks", .polygon fun _ => some true⟩,
            ⟨"11704", "Sydney - CBD", .polygon fun _ => some true⟩]⟩, true, none⟩
    ⟨[⟨"11703", "Sydney - Haymarket - The Rocks", .polygon fun _ => some true⟩,
      ⟨"11704", "Sydney - CBD", .polygon fun _ => some true⟩]⟩
    [] [⟨"11704", "Sydney - CBD", .polygon fun _ => some true⟩]
    ⟨"11703", "Sydney - Haymarket - The Rocks", .polygon fun _ => some true⟩
    (-33) 151 rfl rfl rfl
    (by norm_num) (by norm_num) (by norm_num) (by norm_num)
    (fun g hg => absurd hg (List.not_mem_nil g)) rfl

/-- C9: after initialization, both lookups are read-only: running
`getSA2CodesForPostcode` or `latLongToSA2` twice with identical arguments
(threading the module state through) yields the same result both times
and leaves the state exactly as it was. -/
theorem lookups_idempotent_no_mutation (stC : CacheState) (stG : GeoState)
    (postcode : String) (latitude longitude : ℚ) :
    (runPostcodeLookup (runPostcodeLookup stC postcode).2 postcode).1
      = (runPostcodeLookup stC postcode).1 ∧
    (runPostcodeLookup (runPostcodeLookup stC postcode).2 postcode).2 = stC ∧
    (runLatLongToSA2 (runLatLongToSA2 stG latitude longitude).2 latitude longitude).1
      = (runLatLongToSA2 stG latitude longitude).1 ∧
    (runLatLongToSA2 (runLatLongToSA2 stG latitude longitude).2 latitude longitude).2 = stG :=
  ⟨rfl, rfl, rfl, rfl⟩

/-- C10: at the raw interface, `getSA2CodesForPostcode` returns `[]` both
on a never-initialized cache and on a built cache missing the postcode —
the return value alone cannot separate the two — while the tool handler,
which consults `cacheInitialized` before the lookup, answers the two
states with observably different responses. -/
theorem raw_lookup_conflates_uninitialized_and_unmapped
    (st1 st2 : CacheState) (p : String)
    (hp : validatePostcode p = true)
    (h1 : st1.cacheInitialized = false)
    (h2 : st2.cacheInitialized = true)
    (habsent : lookupCache st2.geographyCache p = none) :
    getSA2CodesForPostcode st1 p = [] ∧
    getSA2CodesForPostcode st2 p = [] ∧
    getSA2CodesForPostcode st1 p = getSA2CodesForPostcode st2 p ∧
    handleGetSuburbStats st1 p = .respond (cacheUnavailableResponse st1) ∧
    handleGetSuburbStats st2 p = .respond (postcodeNotFoundResponse st2 p) ∧
    handleGetSuburbStats st1 p ≠ handleGetSuburbStats st2 p := by
  have ha : getSA2CodesForPostcode st1 p = [] := by
    unfold getSA2CodesForPostcode
    simp [h1]
  have hb : getSA2CodesForPostcode st2 p = [] := by
    unfold getSA2CodesForPostcode
    simp [h2, habsent]
  have hc : handleGetSuburbStats st1 p = .respond (cacheUnavailableResponse st1) := by
    unfold handleGetSuburbStats
    simp [hp, h1]
  have hd : handleGetSuburbStats st2 p = .respond (postcodeNotFoundResponse st2 p) := by
    unfold handleGetSuburbStats
    simp [hp, h2, getSA2CodesForPostcode, habsent]
  refine ⟨ha, hb, ha.trans hb.symm, hc, hd, ?_⟩
  intro hcontra
  rw [hc, hd] at hcontra
  exact postcodeNotFoundResponse_ne_cacheUnavailableResponse st2 st1 p
    (HandlerStep.respond.inj hcontra).symm

/-- C10 (witness): postcode 2000 yields `[]` against an uninitialized
state and against a built state missing it, while the handler answers
unavailability in the first case and not-found in the second. -/
theorem raw_lookup_conflates_uninitialized_and_unmapped_witness :
    getSA2CodesForPostcode ⟨[("2000", ["11703"])], false, none⟩ "2000" = [] ∧
    getSA2CodesForPostcode ⟨[("3000", ["20601"])], true, none⟩ "2000" = [] ∧
    getSA2CodesForPostcode ⟨[("2000", ["11703"])], false, none⟩ "2000"
      = getSA2CodesForPostcode ⟨[("3000", ["20601"])], true, none⟩ "2000" ∧
    handleGetSuburbStats ⟨[("2000", ["11703"])], false, none⟩ "2000"
      = .respond (cacheUnavailableResponse ⟨[("2000", ["11703"])], false, none⟩) ∧
    handleGetSuburbStats ⟨[("3000", ["20601"])], true, none⟩ "2000"
      = .respond (postcodeNotFoundResponse ⟨[("3000", ["20601"])], true, none⟩ "2000") ∧
    handleGetSuburbStats ⟨[("2000", ["11703"])], false, none⟩ "2000"
      ≠ handleGetSuburbStats ⟨[("3000", ["20601"])], true, none⟩ "2000" :=
  raw_lookup_conflates_uninitialized_and_unmapped _ _ "2000" (by decide) rfl rfl (by decide)

/-- C8: whenever the loader takes the baseline path and the baseline read
succeeds, a failing cache write (mkdir or write throwing) never fails the
load: the loader still returns the baseline bytes with tier `baseline`,
`initializeGeographyCache` still builds the index from those bytes and
flips the ready flag, and `initializeGeoBoundaries` (for any successful
parse of the same bytes) still publishes the features and flips its
ready flag. -/
theorem cache_write_failure_never_fails_load (env : LoaderEnv) (b : String)
    (parseGeo : String → Option GeoJSONFeatureCollection) (fc : GeoJSONFeatureCollection)
    (huse : useCacheDecision env = false)
    (hbase : env.baselineBytes = some b)
    (hwrite : env.writeOk = false)
    (hparse : parseGeo b = some fc) :
    loadDataset env = .ok ⟨b, .baseline, true, false⟩ ∧
    initializeGeographyCache env = ⟨buildGeographyCache b, true, none⟩ ∧
    initializeGeoBoundaries parseGeo env = ⟨some fc, true, none⟩ := by
  have hload : loadDataset env = .ok ⟨b, .baseline, true, false⟩ := by
    unfold loadDataset
    rw [huse]
    simp [hbase, hwrite]
  refine ⟨hload, ?_, ?_⟩
  · unfold initializeGeographyCache
    rw [hload]
  · unfold initializeGeoBoundaries
    rw [hload]
    simp [hparse]

/-- C8 (witness): with no cache file and a failing cache write, both
initializers still come up ready from the baseline bytes. -/
theorem cache_write_failure_never_fails_load_witness :
    loadDataset ⟨false, true, 0, 0, "unused", some "POA,SA2\n2000,11703", false⟩
      = .ok ⟨"POA,SA2\n2000,11703", .baseline, true, false⟩ ∧
    initializeGeographyCache ⟨false, true, 0, 0, "unused", some "POA,SA2\n2000,11703", false⟩
      = ⟨buildGeographyCache "POA,SA2\n2000,11703", true, none⟩ ∧
    initializeGeoBoundaries (fun _ => some ⟨[]⟩)
        ⟨false, true, 0, 0, "unused", some "POA,SA2\n2000,11703", false⟩
      = ⟨some ⟨[]⟩, true, none⟩ :=
  cache_write_failure_never_fails_load
    ⟨false, true, 0, 0, "unused", some "POA,SA2\n2000,11703", false⟩
    "POA,SA2\n2000,11703" (fun _ => some ⟨[]⟩) ⟨[]⟩ rfl rfl rfl rfl
